import Mathlib

/-!
Verification of the netfilter example (src/examples/netfilter/netfilter.c).

The program captures packets matching a filter, and for each captured packet
synthesizes a reject reply: a TCP RST for TCP, an ICMP/ICMPv6 port-unreachable
for UDP, and nothing for ICMP/ICMPv6.  We shallowly embed the dispatch-loop
body of `main` together with the packet-template initialisation functions, and
prove the spec's claims about reply synthesis over that embedding.

Machine integers are modelled as `Nat` with explicit `% 2^32` where the C code
performs 32-bit arithmetic.  Multi-byte header fields hold their raw
network-order value; `ntohl`/`htonl`/`ntohs`/`htons` are byte swaps (the host
is little-endian x86 Windows).
-/

namespace Netfilter

/-- `i`-th byte (little-endian position) of a natural number. -/
def byteAt (n i : Nat) : Nat := n / 256 ^ i % 256

/-- 32-bit byte swap: converts between little-endian host order and
network (big-endian) order, as `ntohl`/`htonl` do on x86. -/
def bswap32 (n : Nat) : Nat :=
  byteAt n 0 * 2 ^ 24 + byteAt n 1 * 2 ^ 16 + byteAt n 2 * 2 ^ 8 + byteAt n 3

/-- 16-bit byte swap, as `ntohs`/`htons` on x86. -/
def bswap16 (n : Nat) : Nat := byteAt n 0 * 2 ^ 8 + byteAt n 1

def ntohl (n : Nat) : Nat := bswap32 n
def htonl (n : Nat) : Nat := bswap32 n
def ntohs (n : Nat) : Nat := bswap16 n
def htons (n : Nat) : Nat := bswap16 n

/-- C logical negation `!x` on an unsigned integer. -/
def cNot (n : Nat) : Nat := if n = 0 then 1 else 0

/-! ### Header structures

The `DIVERT_*HDR` structures come from the WinDivert API header (divert.h,
not part of the example's own sources); their layouts are the standard
protocol header layouts the spec refers to (IPv4 = 20 bytes, IPv6 = 40,
TCP = 20, UDP = 8, ICMP = 8, ICMPv6 = 8).  Field values are raw
network-order values as stored in the packet buffer; 4-bit fields
(`HdrLength`, `Version`) hold their numeric value directly. -/

structure DIVERT_IPHDR where
  HdrLength : Nat   -- 4-bit: header length in 32-bit words
  Version   : Nat   -- 4-bit
  TOS       : Nat   -- 8-bit
  Length    : Nat   -- 16-bit, network order
  Id        : Nat   -- 16-bit
  FragOff0  : Nat   -- 16-bit
  TTL       : Nat   -- 8-bit
  Protocol  : Nat   -- 8-bit
  Checksum  : Nat   -- 16-bit
  SrcAddr   : Nat   -- 32-bit, network order
  DstAddr   : Nat   -- 32-bit, network order
  deriving Repr, DecidableEq

structure DIVERT_IPV6HDR where
  TrafficClass0 : Nat
  Version       : Nat          -- 4-bit
  TrafficClass1 : Nat
  FlowLabel0    : Nat
  FlowLabel1    : Nat
  Length        : Nat          -- 16-bit, network order
  NextHdr       : Nat          -- 8-bit
  HopLimit      : Nat          -- 8-bit
  SrcAddr       : List Nat     -- four 32-bit words, network order
  DstAddr       : List Nat
  deriving Repr, DecidableEq

structure DIVERT_TCPHDR where
  SrcPort   : Nat   -- 16-bit, network order
  DstPort   : Nat   -- 16-bit, network order
  SeqNum    : Nat   -- 32-bit, network order
  AckNum    : Nat   -- 32-bit, network order
  Reserved1 : Nat
  HdrLength : Nat   -- 4-bit
  Fin       : Bool
  Syn       : Bool
  Rst       : Bool
  Psh       : Bool
  Ack       : Bool
  Urg       : Bool
  Reserved2 : Nat
  Window    : Nat
  Checksum  : Nat
  UrgPtr    : Nat
  deriving Repr, DecidableEq

structure DIVERT_UDPHDR where
  SrcPort  : Nat
  DstPort  : Nat
  Length   : Nat
  Checksum : Nat
  deriving Repr, DecidableEq

structure DIVERT_ICMPHDR where
  «Type»   : Nat   -- 8-bit
  Code     : Nat   -- 8-bit
  Checksum : Nat   -- 16-bit
  Body     : Nat   -- 32-bit
  deriving Repr, DecidableEq

structure DIVERT_ICMPV6HDR where
  «Type»   : Nat
  Code     : Nat
  Checksum : Nat
  Body     : Nat
  deriving Repr, DecidableEq

/-- Capture metadata (divert.h `DIVERT_ADDRESS`): interface indices and a
direction flag (`DIVERT_DIRECTION_OUTBOUND = 0`, `DIVERT_DIRECTION_INBOUND
= 1`). -/
structure DIVERT_ADDRESS where
  IfIdx     : Nat
  SubIfIdx  : Nat
  Direction : Nat   -- 8-bit
  deriving Repr, DecidableEq

def DIVERT_DIRECTION_OUTBOUND : Nat := 0
def DIVERT_DIRECTION_INBOUND : Nat := 1

/-! ### Structure sizes (bytes), as `sizeof` yields on the C structs. -/

def sizeof_DIVERT_IPHDR : Nat := 20
def sizeof_DIVERT_IPV6HDR : Nat := 40
def sizeof_DIVERT_TCPHDR : Nat := 20
def sizeof_DIVERT_ICMPHDR : Nat := 8
def sizeof_DIVERT_ICMPV6HDR : Nat := 8
def sizeof_UINT32 : Nat := 4

/-- `sizeof(TCPPACKET)`: IPv4 header + TCP header. -/
def sizeof_TCPPACKET : Nat := sizeof_DIVERT_IPHDR + sizeof_DIVERT_TCPHDR

/-- `sizeof(TCPV6PACKET)`: IPv6 header + TCP header. -/
def sizeof_TCPV6PACKET : Nat := sizeof_DIVERT_IPV6HDR + sizeof_DIVERT_TCPHDR

/-- `sizeof(ICMPPACKET)`: IPv4 header + ICMP header (the flexible `data[]`
member contributes no size). -/
def sizeof_ICMPPACKET : Nat := sizeof_DIVERT_IPHDR + sizeof_DIVERT_ICMPHDR

/-- `sizeof(ICMPV6PACKET)`: IPv6 header + ICMPv6 header. -/
def sizeof_ICMPV6PACKET : Nat := sizeof_DIVERT_IPV6HDR + sizeof_DIVERT_ICMPV6HDR

/-- Size of the `dnr0` buffer: `sizeof(ICMPPACKET) + 0x0F*sizeof(UINT32) + 8
+ 1` (netfilter.c line 104). -/
def sizeof_dnr0 : Nat := sizeof_ICMPPACKET + 0x0F * sizeof_UINT32 + 8 + 1

/-- Capacity of the `dnr` reply's data area: the bytes of `dnr0` after the
fixed headers. -/
def dnrDataCapacity : Nat := sizeof_dnr0 - sizeof_ICMPPACKET

/-- Size of the `dnrv6_0` buffer (netfilter.c lines 109-110). -/
def sizeof_dnrv6_0 : Nat :=
  sizeof_ICMPV6PACKET + sizeof_DIVERT_IPV6HDR + sizeof_DIVERT_TCPHDR

/-! ### Protocol constants. -/

def IPPROTO_ICMP : Nat := 1
def IPPROTO_TCP : Nat := 6
def IPPROTO_ICMPV6 : Nat := 58

/-! ### Pre-fabricated reply packets (netfilter.c lines 47-71). -/

structure TCPPACKET where
  ip  : DIVERT_IPHDR
  tcp : DIVERT_TCPHDR
  deriving Repr, DecidableEq

structure TCPV6PACKET where
  ipv6 : DIVERT_IPV6HDR
  tcp  : DIVERT_TCPHDR
  deriving Repr, DecidableEq

/-- `ICMPPACKET`: headers plus the flexible data area, modelled as the byte
list currently stored there. -/
structure ICMPPACKET where
  ip   : DIVERT_IPHDR
  icmp : DIVERT_ICMPHDR
  data : List Nat
  deriving Repr, DecidableEq

structure ICMPV6PACKET where
  ipv6   : DIVERT_IPV6HDR
  icmpv6 : DIVERT_ICMPV6HDR
  data   : List Nat
  deriving Repr, DecidableEq

/-! ### Packet initialisation (netfilter.c lines 369-430). -/

/-- A zeroed `DIVERT_IPHDR` (effect of `memset(packet, 0, ...)`). -/
def zeroIphdr : DIVERT_IPHDR :=
  { HdrLength := 0, Version := 0, TOS := 0, Length := 0, Id := 0,
    FragOff0 := 0, TTL := 0, Protocol := 0, Checksum := 0,
    SrcAddr := 0, DstAddr := 0 }

def zeroIpv6hdr : DIVERT_IPV6HDR :=
  { TrafficClass0 := 0, Version := 0, TrafficClass1 := 0, FlowLabel0 := 0,
    FlowLabel1 := 0, Length := 0, NextHdr := 0, HopLimit := 0,
    SrcAddr := [0, 0, 0, 0], DstAddr := [0, 0, 0, 0] }

def zeroTcphdr : DIVERT_TCPHDR :=
  { SrcPort := 0, DstPort := 0, SeqNum := 0, AckNum := 0, Reserved1 := 0,
    HdrLength := 0, Fin := false, Syn := false, Rst := false, Psh := false,
    Ack := false, Urg := false, Reserved2 := 0, Window := 0, Checksum := 0,
    UrgPtr := 0 }

def zeroIcmphdr : DIVERT_ICMPHDR :=
  { «Type» := 0, Code := 0, Checksum := 0, Body := 0 }

def zeroIcmpv6hdr : DIVERT_ICMPV6HDR :=
  { «Type» := 0, Code := 0, Checksum := 0, Body := 0 }

/-- `PacketIpInit` (netfilter.c lines 369-376). -/
def PacketIpInit (_packet : DIVERT_IPHDR) : DIVERT_IPHDR :=
  let p := zeroIphdr
  { p with
    Version := 4,
    HdrLength := sizeof_DIVERT_IPHDR / sizeof_UINT32,
    Id := ntohs 0xDEAD,
    TTL := 64 }

/-- `PacketIpTcpInit` (netfilter.c lines 381-388). -/
def PacketIpTcpInit (_packet : TCPPACKET) : TCPPACKET :=
  let p : TCPPACKET := { ip := zeroIphdr, tcp := zeroTcphdr }
  let ip := PacketIpInit p.ip
  { p with
    ip := { ip with
      Length := htons sizeof_TCPPACKET,
      Protocol := IPPROTO_TCP },
    tcp := { p.tcp with
      HdrLength := sizeof_DIVERT_TCPHDR / sizeof_UINT32 } }

/-- `PacketIpIcmpInit` (netfilter.c lines 393-398).  `memset` covers only
`sizeof(ICMPPACKET)`, so the data area keeps its previous (uninitialised)
contents. -/
def PacketIpIcmpInit (packet : ICMPPACKET) : ICMPPACKET :=
  { ip := { PacketIpInit zeroIphdr with Protocol := IPPROTO_ICMP },
    icmp := zeroIcmphdr,
    data := packet.data }

/-- `PacketIpv6Init` (netfilter.c lines 403-408). -/
def PacketIpv6Init (_packet : DIVERT_IPV6HDR) : DIVERT_IPV6HDR :=
  { zeroIpv6hdr with Version := 6, HopLimit := 64 }

/-- `PacketIpv6TcpInit` (netfilter.c lines 413-420). -/
def PacketIpv6TcpInit (_packet : TCPV6PACKET) : TCPV6PACKET :=
  { ipv6 := { PacketIpv6Init zeroIpv6hdr with
      Length := htons sizeof_DIVERT_TCPHDR,
      NextHdr := IPPROTO_TCP },
    tcp := { zeroTcphdr with
      HdrLength := sizeof_DIVERT_TCPHDR / sizeof_UINT32 } }

/-- `PacketIpv6Icmpv6Init` (netfilter.c lines 425-430). -/
def PacketIpv6Icmpv6Init (packet : ICMPV6PACKET) : ICMPV6PACKET :=
  { ipv6 := { PacketIpv6Init zeroIpv6hdr with NextHdr := IPPROTO_ICMPV6 },
    icmpv6 := zeroIcmpv6hdr,
    data := packet.data }

/-! ### Template state

The four long-lived reply buffers owned by `main` (netfilter.c lines
102-111). -/

structure Templates where
  reset   : TCPPACKET
  dnr     : ICMPPACKET
  resetv6 : TCPV6PACKET
  dnrv6   : ICMPV6PACKET
  deriving Repr, DecidableEq

/-- The template initialisation performed by `main` before the dispatch loop
(netfilter.c lines 132-146).  The stack buffers' data areas start with
arbitrary (uninitialised) contents `d0`, `d60`; no claim reads them before
they are overwritten. -/
def initTemplates (d0 d60 : List Nat) : Templates :=
  let reset := PacketIpTcpInit { ip := zeroIphdr, tcp := zeroTcphdr }
  let reset := { reset with tcp := { reset.tcp with Rst := true, Ack := true } }
  let dnr := PacketIpIcmpInit { ip := zeroIphdr, icmp := zeroIcmphdr, data := d0 }
  let dnr := { dnr with icmp := { dnr.icmp with «Type» := 3, Code := 3 } }
  let resetv6 := PacketIpv6TcpInit { ipv6 := zeroIpv6hdr, tcp := zeroTcphdr }
  let resetv6 :=
    { resetv6 with tcp := { resetv6.tcp with Rst := true, Ack := true } }
  let dnrv6 := PacketIpv6Icmpv6Init
    { ipv6 := zeroIpv6hdr, icmpv6 := zeroIcmpv6hdr, data := d60 }
  let dnrv6 :=
    { dnrv6 with
      ipv6 := { dnrv6.ipv6 with
        Length := htons (sizeof_DIVERT_ICMPV6HDR + 4 +
          sizeof_DIVERT_IPV6HDR + sizeof_DIVERT_TCPHDR) },
      icmpv6 := { dnrv6.icmpv6 with «Type» := 1, Code := 4 } }
  { reset := reset, dnr := dnr, resetv6 := resetv6, dnrv6 := dnrv6 }

/-! ### Dispatch-loop input and output. -/

/-- One captured packet as delivered by `DivertRecv` + `DivertHelperParse`:
the raw bytes, the parsed optional header views (each view's fields read off
the raw buffer; the network-layer header starts at byte 0 of `packet`), the
transport payload length, and the capture metadata. -/
structure PacketInput where
  packet      : List Nat
  ip          : Option DIVERT_IPHDR
  ipv6        : Option DIVERT_IPV6HDR
  icmp        : Option DIVERT_ICMPHDR
  icmpv6      : Option DIVERT_ICMPV6HDR
  tcp         : Option DIVERT_TCPHDR
  udp         : Option DIVERT_UDPHDR
  payload_len : Nat
  recv_addr   : DIVERT_ADDRESS

/-- One `DivertSend` call: which template buffer was sent, the struct's
contents at that moment, the byte length passed, and the send metadata. -/
inductive SendCall where
  | tcpReset (p : TCPPACKET) (len : Nat) (addr : DIVERT_ADDRESS)
  | tcpResetV6 (p : TCPV6PACKET) (len : Nat) (addr : DIVERT_ADDRESS)
  | icmpDnr (p : ICMPPACKET) (len : Nat) (addr : DIVERT_ADDRESS)
  | icmpv6Dnr (p : ICMPV6PACKET) (len : Nat) (addr : DIVERT_ADDRESS)
  deriving Repr, DecidableEq

/-- Modelled from the spec: `DivertHelperCalcChecksums` (divert.h / the
WinDivert helper library, not among the example's sources) "computes and
writes the transport/ICMP checksum field(s) and, for IPv4, the header
checksum" (spec paragraph 4.2).  The numeric checksum values are abstracted
as functions of the packet; the embedding only fixes WHICH fields the call
writes. -/
structure Checksummer where
  tcp4 : TCPPACKET → Nat × Nat          -- (IPv4 header checksum, TCP checksum)
  tcp6 : TCPV6PACKET → Nat              -- TCP checksum (no IPv6 hdr checksum)
  icmp4 : ICMPPACKET → Nat → Nat × Nat  -- given total length
  icmp6 : ICMPV6PACKET → Nat → Nat

def applyCkTcp4 (ck : Checksummer) (p : TCPPACKET) : TCPPACKET :=
  { p with
    ip := { p.ip with Checksum := (ck.tcp4 p).1 },
    tcp := { p.tcp with Checksum := (ck.tcp4 p).2 } }

def applyCkTcp6 (ck : Checksummer) (p : TCPV6PACKET) : TCPV6PACKET :=
  { p with tcp := { p.tcp with Checksum := ck.tcp6 p } }

def applyCkIcmp4 (ck : Checksummer) (p : ICMPPACKET) (len : Nat) : ICMPPACKET :=
  { p with
    ip := { p.ip with Checksum := (ck.icmp4 p len).1 },
    icmp := { p.icmp with Checksum := (ck.icmp4 p len).2 } }

def applyCkIcmp6 (ck : Checksummer) (p : ICMPV6PACKET) (len : Nat) :
    ICMPV6PACKET :=
  { p with icmpv6 := { p.icmpv6 with Checksum := ck.icmp6 p len } }

/-- The trivial checksummer (used to evaluate the model on concrete inputs;
the theorems hold for every checksummer). -/
def ckZero : Checksummer :=
  { tcp4 := fun _ => (0, 0), tcp6 := fun _ => 0,
    icmp4 := fun _ _ => (0, 0), icmp6 := fun _ _ => 0 }

/-! ### The dispatch-loop body (netfilter.c lines 176-362).

On each iteration the program parses the captured packet, skips it when
neither network header was recognised, and otherwise fills in and transmits
the matching reply templates.  The body is embedded as a pure function from
the template state and one captured packet to the new template state and the
list of `DivertSend` calls made, in program order. -/

/-- The TCP-reset field fill for IPv4 (netfilter.c lines 259-268). -/
def fillResetV4 (r : TCPPACKET) (iph : DIVERT_IPHDR) (tcph : DIVERT_TCPHDR)
    (payload_len : Nat) : TCPPACKET :=
  { r with
    ip := { r.ip with SrcAddr := iph.DstAddr, DstAddr := iph.SrcAddr },
    tcp := { r.tcp with
      SrcPort := tcph.DstPort,
      DstPort := tcph.SrcPort,
      SeqNum := if tcph.Ack then tcph.AckNum else 0,
      AckNum :=
        if tcph.Syn then htonl ((ntohl tcph.SeqNum + 1) % 2 ^ 32)
        else htonl ((ntohl tcph.SeqNum + payload_len) % 2 ^ 32) } }

/-- The TCP-reset field fill for IPv6 (netfilter.c lines 284-295). -/
def fillResetV6 (r : TCPV6PACKET) (ip6h : DIVERT_IPV6HDR)
    (tcph : DIVERT_TCPHDR) (payload_len : Nat) : TCPV6PACKET :=
  { r with
    ipv6 := { r.ipv6 with SrcAddr := ip6h.DstAddr, DstAddr := ip6h.SrcAddr },
    tcp := { r.tcp with
      SrcPort := tcph.DstPort,
      DstPort := tcph.SrcPort,
      SeqNum := if tcph.Ack then tcph.AckNum else 0,
      AckNum :=
        if tcph.Syn then htonl ((ntohl tcph.SeqNum + 1) % 2 ^ 32)
        else htonl ((ntohl tcph.SeqNum + payload_len) % 2 ^ 32) } }

/-- Number of bytes `memcpy`d into the ICMP reply's data area:
`ip_header->HdrLength*sizeof(UINT32) + 8` (netfilter.c line 320). -/
def icmpCopyLen (iph : DIVERT_IPHDR) : Nat :=
  iph.HdrLength * sizeof_UINT32 + 8

/-- Number of bytes `memcpy`d into the ICMPv6 reply's data area
(netfilter.c lines 341-342). -/
def icmpv6CopyLen : Nat := sizeof_DIVERT_IPV6HDR + sizeof_DIVERT_TCPHDR

/-- `memcpy(dst_area, src_bytes, n)` on a data area: the first `n` bytes are
replaced by the first `n` source bytes, the rest keep their old contents.
(When the source holds fewer than `n` bytes the C copy reads out of bounds;
the claims only apply with the source long enough.) -/
def memcpyArea (old src : List Nat) (n : Nat) : List Nat :=
  src.take n ++ old.drop n

/-- The ICMP destination-unreachable fill for IPv4 (netfilter.c lines
320-325).  Returns the filled packet and `icmp_length` after the
`+= sizeof(ICMPPACKET)` update. -/
def fillDnrV4 (d : ICMPPACKET) (iph : DIVERT_IPHDR) (packet : List Nat) :
    ICMPPACKET × Nat :=
  let icmp_length := icmpCopyLen iph
  let d := { d with data := memcpyArea d.data packet icmp_length }
  let icmp_length := icmp_length + sizeof_ICMPPACKET
  let d := { d with
    ip := { d.ip with
      Length := htons (icmp_length % 2 ^ 16),
      SrcAddr := iph.DstAddr,
      DstAddr := iph.SrcAddr } }
  (d, icmp_length)

/-- The ICMPv6 destination-unreachable fill (netfilter.c lines 341-348). -/
def fillDnrV6 (d : ICMPV6PACKET) (ip6h : DIVERT_IPV6HDR)
    (packet : List Nat) : ICMPV6PACKET × Nat :=
  let icmpv6_length := icmpv6CopyLen
  let d := { d with data := memcpyArea d.data packet icmpv6_length }
  let icmpv6_length := icmpv6_length + sizeof_ICMPV6PACKET
  let d := { d with
    ipv6 := { d.ipv6 with SrcAddr := ip6h.DstAddr, DstAddr := ip6h.SrcAddr } }
  (d, icmpv6_length)

/-- `send_addr` for the TCP resets: `recv_addr` with the direction flag
logically negated (netfilter.c lines 272-273 and 300-301). -/
def resetSendAddr (recv_addr : DIVERT_ADDRESS) : DIVERT_ADDRESS :=
  { recv_addr with Direction := cNot recv_addr.Direction }

/-- `send_addr` for the ICMP/ICMPv6 replies: `recv_addr` with the direction
forced to outbound (netfilter.c lines 329-330 and 352-353). -/
def dnrSendAddr (recv_addr : DIVERT_ADDRESS) : DIVERT_ADDRESS :=
  { recv_addr with Direction := DIVERT_DIRECTION_OUTBOUND }

/-- One iteration of the dispatch loop after a successful receive
(netfilter.c lines 176-362), as state transformer plus emitted sends. -/
def loopBody (ck : Checksummer) (st : Templates) (inp : PacketInput) :
    Templates × List SendCall :=
  if inp.ip.isNone && inp.ipv6.isNone then (st, [])
  else
    -- TCP branch (lines 226-309)
    let tcpStep : Templates × List SendCall :=
      match inp.tcp with
      | none => (st, [])
      | some tcph =>
        let v4 : Templates × List SendCall :=
          match inp.ip with
          | none => (st, [])
          | some iph =>
            let r := fillResetV4 st.reset iph tcph inp.payload_len
            let r := applyCkTcp4 ck r
            ({ st with reset := r },
             [SendCall.tcpReset r sizeof_TCPPACKET
                (resetSendAddr inp.recv_addr)])
        let st1 := v4.1
        let v6 : Templates × List SendCall :=
          match inp.ipv6 with
          | none => (st1, [])
          | some ip6h =>
            let r := fillResetV6 st1.resetv6 ip6h tcph inp.payload_len
            let r := applyCkTcp6 ck r
            ({ st1 with resetv6 := r },
             [SendCall.tcpResetV6 r sizeof_TCPV6PACKET
                (resetSendAddr inp.recv_addr)])
        (v6.1, v4.2 ++ v6.2)
    let st2 := tcpStep.1
    -- UDP branch (lines 310-361)
    let udpStep : Templates × List SendCall :=
      match inp.udp with
      | none => (st2, [])
      | some _ =>
        let v4 : Templates × List SendCall :=
          match inp.ip with
          | none => (st2, [])
          | some iph =>
            let dl := fillDnrV4 st2.dnr iph inp.packet
            let d := applyCkIcmp4 ck dl.1 dl.2
            ({ st2 with dnr := d },
             [SendCall.icmpDnr d dl.2 (dnrSendAddr inp.recv_addr)])
        let st3 := v4.1
        let v6 : Templates × List SendCall :=
          match inp.ipv6 with
          | none => (st3, [])
          | some ip6h =>
            let dl := fillDnrV6 st3.dnrv6 ip6h inp.packet
            let d := applyCkIcmp6 ck dl.1 dl.2
            ({ st3 with dnrv6 := d },
             [SendCall.icmpv6Dnr d dl.2 (dnrSendAddr inp.recv_addr)])
        (v6.1, v4.2 ++ v6.2)
    (udpStep.1, tcpStep.2 ++ udpStep.2)

/-- The dispatch loop over a finite list of successfully received packets:
threads the template state and concatenates the emitted sends. -/
def runLoop (ck : Checksummer) (st : Templates) :
    List PacketInput → Templates × List SendCall
  | [] => (st, [])
  | inp :: rest =>
    let step := loopBody ck st inp
    let next := runLoop ck step.1 rest
    (next.1, step.2 ++ next.2)

/-! ### Structural ("set once") template fields and per-send properties. -/

/-- The structural fields of the four reply templates with the values the
pre-loop initialisation (netfilter.c lines 132-146, 369-430) gives them:
version, header-length words, protocol/next-header, TTL/hop limit, the TCP
flag bits, and the ICMP/ICMPv6 type/code. -/
def structuralInv (st : Templates) : Prop :=
  st.reset.ip.Version = 4 ∧
  st.reset.ip.HdrLength = 5 ∧
  st.reset.ip.Protocol = IPPROTO_TCP ∧
  st.reset.ip.TTL = 64 ∧
  st.reset.tcp.HdrLength = 5 ∧
  st.reset.tcp.Rst = true ∧
  st.reset.tcp.Ack = true ∧
  st.reset.tcp.Syn = false ∧
  st.reset.tcp.Fin = false ∧
  st.reset.tcp.Urg = false ∧
  st.reset.tcp.Psh = false ∧
  st.resetv6.ipv6.Version = 6 ∧
  st.resetv6.ipv6.NextHdr = IPPROTO_TCP ∧
  st.resetv6.ipv6.HopLimit = 64 ∧
  st.resetv6.tcp.HdrLength = 5 ∧
  st.resetv6.tcp.Rst = true ∧
  st.resetv6.tcp.Ack = true ∧
  st.resetv6.tcp.Syn = false ∧
  st.resetv6.tcp.Fin = false ∧
  st.resetv6.tcp.Urg = false ∧
  st.resetv6.tcp.Psh = false ∧
  st.dnr.ip.Version = 4 ∧
  st.dnr.ip.HdrLength = 5 ∧
  st.dnr.ip.Protocol = IPPROTO_ICMP ∧
  st.dnr.ip.TTL = 64 ∧
  st.dnr.icmp.«Type» = 3 ∧
  st.dnr.icmp.Code = 3 ∧
  st.dnrv6.ipv6.Version = 6 ∧
  st.dnrv6.ipv6.NextHdr = IPPROTO_ICMPV6 ∧
  st.dnrv6.ipv6.HopLimit = 64 ∧
  st.dnrv6.icmpv6.«Type» = 1 ∧
  st.dnrv6.icmpv6.Code = 4

instance (st : Templates) : Decidable (structuralInv st) := by
  unfold structuralInv; infer_instance

/-- The structural fields a transmitted reply must carry (claim C9's list,
per reply kind). -/
def sendStructOk : SendCall → Prop
  | .tcpReset p _ _ =>
      p.ip.Version = 4 ∧ p.ip.HdrLength = 5 ∧ p.ip.Protocol = IPPROTO_TCP ∧
      p.ip.TTL = 64 ∧ p.tcp.HdrLength = 5 ∧ p.tcp.Rst = true ∧
      p.tcp.Ack = true
  | .tcpResetV6 p _ _ =>
      p.ipv6.Version = 6 ∧ p.ipv6.NextHdr = IPPROTO_TCP ∧
      p.ipv6.HopLimit = 64 ∧ p.tcp.HdrLength = 5 ∧ p.tcp.Rst = true ∧
      p.tcp.Ack = true
  | .icmpDnr p _ _ =>
      p.ip.Version = 4 ∧ p.ip.HdrLength = 5 ∧ p.ip.Protocol = IPPROTO_ICMP ∧
      p.ip.TTL = 64 ∧ p.icmp.«Type» = 3 ∧ p.icmp.Code = 3
  | .icmpv6Dnr p _ _ =>
      p.ipv6.Version = 6 ∧ p.ipv6.NextHdr = IPPROTO_ICMPV6 ∧
      p.ipv6.HopLimit = 64 ∧ p.icmpv6.«Type» = 1 ∧ p.icmpv6.Code = 4

instance : (c : SendCall) → Decidable (sendStructOk c)
  | .tcpReset _ _ _ => inferInstanceAs (Decidable (_ ∧ _))
  | .tcpResetV6 _ _ _ => inferInstanceAs (Decidable (_ ∧ _))
  | .icmpDnr _ _ _ => inferInstanceAs (Decidable (_ ∧ _))
  | .icmpv6Dnr _ _ _ => inferInstanceAs (Decidable (_ ∧ _))

/-- Sequence/acknowledgment correctness of a TCP reset relative to the
inbound TCP header and transport payload length (claim C1's formulas). -/
def resetSeqAckOk (tcph : DIVERT_TCPHDR) (payload_len : Nat) :
    SendCall → Prop
  | .tcpReset p _ _ =>
      p.tcp.SeqNum = (if tcph.Ack then tcph.AckNum else 0) ∧
      p.tcp.AckNum =
        (if tcph.Syn then htonl ((ntohl tcph.SeqNum + 1) % 2 ^ 32)
         else htonl ((ntohl tcph.SeqNum + payload_len) % 2 ^ 32))
  | .tcpResetV6 p _ _ =>
      p.tcp.SeqNum = (if tcph.Ack then tcph.AckNum else 0) ∧
      p.tcp.AckNum =
        (if tcph.Syn then htonl ((ntohl tcph.SeqNum + 1) % 2 ^ 32)
         else htonl ((ntohl tcph.SeqNum + payload_len) % 2 ^ 32))
  | _ => True

instance (tcph : DIVERT_TCPHDR) (n : Nat) :
    (c : SendCall) → Decidable (resetSeqAckOk tcph n c)
  | .tcpReset _ _ _ => inferInstanceAs (Decidable (_ ∧ _))
  | .tcpResetV6 _ _ _ => inferInstanceAs (Decidable (_ ∧ _))
  | .icmpDnr _ _ _ => inferInstanceAs (Decidable True)
  | .icmpv6Dnr _ _ _ => inferInstanceAs (Decidable True)

/-- Orientation metadata correctness of one transmit relative to the capture
metadata (claim C6): all fields copied, direction logically inverted for TCP
resets and forced outbound for the ICMP/ICMPv6 replies. -/
def sendAddrOk (recv : DIVERT_ADDRESS) : SendCall → Prop
  | .tcpReset _ _ addr =>
      addr.IfIdx = recv.IfIdx ∧ addr.SubIfIdx = recv.SubIfIdx ∧
      addr.Direction = cNot recv.Direction
  | .tcpResetV6 _ _ addr =>
      addr.IfIdx = recv.IfIdx ∧ addr.SubIfIdx = recv.SubIfIdx ∧
      addr.Direction = cNot recv.Direction
  | .icmpDnr _ _ addr =>
      addr.IfIdx = recv.IfIdx ∧ addr.SubIfIdx = recv.SubIfIdx ∧
      addr.Direction = DIVERT_DIRECTION_OUTBOUND
  | .icmpv6Dnr _ _ addr =>
      addr.IfIdx = recv.IfIdx ∧ addr.SubIfIdx = recv.SubIfIdx ∧
      addr.Direction = DIVERT_DIRECTION_OUTBOUND

instance (recv : DIVERT_ADDRESS) :
    (c : SendCall) → Decidable (sendAddrOk recv c)
  | .tcpReset _ _ _ => inferInstanceAs (Decidable (_ ∧ _))
  | .tcpResetV6 _ _ _ => inferInstanceAs (Decidable (_ ∧ _))
  | .icmpDnr _ _ _ => inferInstanceAs (Decidable (_ ∧ _))
  | .icmpv6Dnr _ _ _ => inferInstanceAs (Decidable (_ ∧ _))

/-! ### Concrete sample inputs, used to evaluate the model. -/

/-- Template state right after the pre-loop initialisation (the stack data
areas taken empty). -/
def st0 : Templates := initTemplates [] []

def sampleAddr : DIVERT_ADDRESS :=
  { IfIdx := 7, SubIfIdx := 2, Direction := DIVERT_DIRECTION_INBOUND }

def sampleIph : DIVERT_IPHDR :=
  { zeroIphdr with
    HdrLength := 5, Version := 4, Length := htons 40, TTL := 128,
    Protocol := IPPROTO_TCP, SrcAddr := 0x0101A8C0, DstAddr := 0x0201A8C0 }

def sampleTcph : DIVERT_TCPHDR :=
  { zeroTcphdr with
    SrcPort := htons 1234, DstPort := htons 80, SeqNum := htonl 100,
    HdrLength := 5, Syn := true }

def sampleUdph : DIVERT_UDPHDR :=
  { SrcPort := htons 5353, DstPort := htons 9, Length := htons 12,
    Checksum := 0 }

def sampleIp6h : DIVERT_IPV6HDR :=
  { zeroIpv6hdr with
    Version := 6, Length := htons 20, NextHdr := IPPROTO_TCP, HopLimit := 64,
    SrcAddr := [1, 2, 3, 4], DstAddr := [5, 6, 7, 8] }

def sampleIcmph : DIVERT_ICMPHDR :=
  { «Type» := 8, Code := 0, Checksum := 0, Body := 0 }

/-- A captured inbound TCP-over-IPv4 SYN packet. -/
def sampleTcp4Input : PacketInput :=
  { packet := List.range 40, ip := some sampleIph, ipv6 := none,
    icmp := none, icmpv6 := none, tcp := some sampleTcph, udp := none,
    payload_len := 0, recv_addr := sampleAddr }

/-- A captured inbound TCP-over-IPv6 packet. -/
def sampleTcp6Input : PacketInput :=
  { packet := List.range 60, ip := none, ipv6 := some sampleIp6h,
    icmp := none, icmpv6 := none,
    tcp := some { sampleTcph with
                  Syn := false, Ack := true, AckNum := htonl 77 },
    udp := none, payload_len := 5, recv_addr := sampleAddr }

/-- A captured inbound UDP-over-IPv4 packet (32 bytes on the wire). -/
def sampleUdp4Input : PacketInput :=
  { packet := List.range 32,
    ip := some { sampleIph with Protocol := 17, Length := htons 32 },
    ipv6 := none, icmp := none, icmpv6 := none, tcp := none,
    udp := some sampleUdph, payload_len := 4, recv_addr := sampleAddr }

/-- A captured inbound UDP-over-IPv6 packet (60 bytes on the wire). -/
def sampleUdp6Input : PacketInput :=
  { packet := List.range 60, ip := none,
    ipv6 := some { sampleIp6h with NextHdr := 17, Length := htons 20 },
    icmp := none, icmpv6 := none, tcp := none, udp := some sampleUdph,
    payload_len := 12, recv_addr := sampleAddr }

/-- A captured inbound ICMP echo-request packet. -/
def sampleIcmp4Input : PacketInput :=
  { packet := List.range 28,
    ip := some { sampleIph with Protocol := IPPROTO_ICMP },
    ipv6 := none, icmp := some sampleIcmph, icmpv6 := none, tcp := none,
    udp := none, payload_len := 0, recv_addr := sampleAddr }

/-- A captured packet in which neither network header was recognised. -/
def sampleUnparsedInput : PacketInput :=
  { packet := [0xAA, 0xBB], ip := none, ipv6 := none, icmp := none,
    icmpv6 := none, tcp := none, udp := none, payload_len := 0,
    recv_addr := sampleAddr }

def dummySend : SendCall :=
  SendCall.tcpReset { ip := zeroIphdr, tcp := zeroTcphdr } 0
    { IfIdx := 0, SubIfIdx := 0, Direction := 0 }

/-- First transmit emitted for the sample TCP/IPv4 packet. -/
def sampleSendTcp4 : SendCall :=
  ((loopBody ckZero st0 sampleTcp4Input).2).getD 0 dummySend

/-- First transmit emitted for the sample TCP/IPv6 packet. -/
def sampleSendTcp6 : SendCall :=
  ((loopBody ckZero st0 sampleTcp6Input).2).getD 0 dummySend

/-- First transmit emitted for the sample UDP/IPv4 packet. -/
def sampleSendUdp4 : SendCall :=
  ((loopBody ckZero st0 sampleUdp4Input).2).getD 0 dummySend

/-- First transmit emitted for the sample UDP/IPv6 packet. -/
def sampleSendUdp6 : SendCall :=
  ((loopBody ckZero st0 sampleUdp6Input).2).getD 0 dummySend

/-! ### Claim theorems. -/

/-- C1: for every inbound TCP packet (over IPv4 or IPv6) that produces a
reset, the reset's SeqNum is the inbound AckNum when the inbound ACK flag is
set and 0 otherwise, and the reset's AckNum is inbound SeqNum + 1 when the
inbound SYN flag is set and inbound SeqNum + transport-payload-length
otherwise, the addition being 32-bit wraparound arithmetic on the host-order
value converted back to network order. -/
theorem claim_C1 (ck : Checksummer) (st : Templates) (inp : PacketInput)
    (tcph : DIVERT_TCPHDR) (htcp : inp.tcp = some tcph) :
    ∀ c ∈ (loopBody ck st inp).2, resetSeqAckOk tcph inp.payload_len c := by
  obtain ⟨pkt, oip, oip6, oicmp, oicmp6, otcp, oudp, plen, raddr⟩ := inp
  dsimp only at htcp ⊢
  cases otcp with
  | none => exact absurd htcp (by simp)
  | some t =>
    injection htcp with h
    subst h
    cases oip <;> cases oip6 <;> cases oudp <;>
      simp [loopBody, resetSeqAckOk, applyCkTcp4, applyCkTcp6,
        applyCkIcmp4, applyCkIcmp6, fillResetV4, fillResetV6,
        fillDnrV4, fillDnrV6]

/-- Witness for C1 on the sample TCP/IPv4 SYN packet. -/
theorem claim_C1_witness :
    sampleTcp4Input.tcp = some sampleTcph ∧
    sampleSendTcp4 ∈ (loopBody ckZero st0 sampleTcp4Input).2 ∧
    resetSeqAckOk sampleTcph sampleTcp4Input.payload_len sampleSendTcp4 :=
  ⟨rfl, by decide,
   claim_C1 ckZero st0 sampleTcp4Input sampleTcph rfl sampleSendTcp4
     (by decide)⟩

/-- C2: for every inbound TCP packet that produces a reset, the reset's
network-layer source/destination addresses are the inbound
destination/source swapped, its TCP ports are the inbound ports swapped, its
RST and ACK flags are set and its SYN, FIN, URG and PSH flags are clear.
The flag bits come from the template state, which after the pre-loop
initialisation satisfies `structuralInv`. -/
theorem claim_C2 (ck : Checksummer) (st : Templates) (inp : PacketInput)
    (tcph : DIVERT_TCPHDR) (hinv : structuralInv st)
    (htcp : inp.tcp = some tcph) :
    (∀ iph, inp.ip = some iph →
      ∀ p len addr,
        SendCall.tcpReset p len addr ∈ (loopBody ck st inp).2 →
          p.ip.SrcAddr = iph.DstAddr ∧ p.ip.DstAddr = iph.SrcAddr ∧
          p.tcp.SrcPort = tcph.DstPort ∧ p.tcp.DstPort = tcph.SrcPort ∧
          p.tcp.Rst = true ∧ p.tcp.Ack = true ∧ p.tcp.Syn = false ∧
          p.tcp.Fin = false ∧ p.tcp.Urg = false ∧ p.tcp.Psh = false) ∧
    (∀ ip6h, inp.ipv6 = some ip6h →
      ∀ p len addr,
        SendCall.tcpResetV6 p len addr ∈ (loopBody ck st inp).2 →
          p.ipv6.SrcAddr = ip6h.DstAddr ∧ p.ipv6.DstAddr = ip6h.SrcAddr ∧
          p.tcp.SrcPort = tcph.DstPort ∧ p.tcp.DstPort = tcph.SrcPort ∧
          p.tcp.Rst = true ∧ p.tcp.Ack = true ∧ p.tcp.Syn = false ∧
          p.tcp.Fin = false ∧ p.tcp.Urg = false ∧ p.tcp.Psh = false) := by
  obtain ⟨pkt, oip, oip6, oicmp, oicmp6, otcp, oudp, plen, raddr⟩ := inp
  obtain ⟨hr1, hr2, hr3, hr4, hr5, hr6, hr7, hr8, hr9, hr10, hr11,
    hs1, hs2, hs3, hs4, hs5, hs6, hs7, hs8, hs9, hs10,
    hd1, hd2, hd3, hd4, hd5, hd6, he1, he2, he3, he4, he5⟩ := hinv
  dsimp only at htcp ⊢
  cases otcp with
  | none => exact absurd htcp (by simp)
  | some t =>
  injection htcp with h
  subst h
  constructor
  · intro iph hip p len addr hmem
    cases oip with
    | none => exact absurd hip (by simp)
    | some iph0 =>
    injection hip with h
    subst h
    cases oip6 <;> cases oudp <;>
      simp [loopBody, applyCkTcp4, applyCkTcp6, applyCkIcmp4, applyCkIcmp6,
        fillResetV4, fillResetV6, fillDnrV4, fillDnrV6] at hmem <;>
      obtain ⟨rfl, rfl, rfl⟩ := hmem <;>
      simp [applyCkTcp4, fillResetV4, hr6, hr7, hr8, hr9, hr10, hr11]
  · intro ip6h hip6 p len addr hmem
    cases oip6 with
    | none => exact absurd hip6 (by simp)
    | some ip6h0 =>
    injection hip6 with h
    subst h
    cases oip <;> cases oudp <;>
      simp [loopBody, applyCkTcp4, applyCkTcp6, applyCkIcmp4, applyCkIcmp6,
        fillResetV4, fillResetV6, fillDnrV4, fillDnrV6] at hmem <;>
      obtain ⟨rfl, rfl, rfl⟩ := hmem <;>
      simp [applyCkTcp6, fillResetV6, hs5, hs6, hs7, hs8, hs9, hs10]

/-- The reset packet the model synthesizes for the sample TCP/IPv4 packet. -/
def sampleResetPkt : TCPPACKET :=
  applyCkTcp4 ckZero (fillResetV4 st0.reset sampleIph sampleTcph 0)

/-- Witness for C2 on the sample TCP/IPv4 SYN packet. -/
theorem claim_C2_witness :
    sampleResetPkt.ip.SrcAddr = sampleIph.DstAddr ∧
    sampleResetPkt.ip.DstAddr = sampleIph.SrcAddr ∧
    sampleResetPkt.tcp.SrcPort = sampleTcph.DstPort ∧
    sampleResetPkt.tcp.DstPort = sampleTcph.SrcPort ∧
    sampleResetPkt.tcp.Rst = true ∧
    sampleResetPkt.tcp.Ack = true ∧
    sampleResetPkt.tcp.Syn = false ∧
    sampleResetPkt.tcp.Fin = false ∧
    sampleResetPkt.tcp.Urg = false ∧
    sampleResetPkt.tcp.Psh = false :=
  (claim_C2 ckZero st0 sampleTcp4Input sampleTcph (by decide) rfl).1
    sampleIph rfl sampleResetPkt sizeof_TCPPACKET (resetSendAddr sampleAddr)
    (by decide)

/-- C3: for every inbound UDP-over-IPv4 packet, the synthesized ICMP reply
has Type 3 and Code 3, and the bytes placed in its data area are exactly the
first (inbound IPv4 header length in bytes + 8) bytes of the inbound packet.
The length hypothesis is the parser's guarantee that the inbound packet
really contains its IPv4 header plus a UDP header. -/
theorem claim_C3 (ck : Checksummer) (st : Templates) (inp : PacketInput)
    (iph : DIVERT_IPHDR) (udph : DIVERT_UDPHDR) (hinv : structuralInv st)
    (hip : inp.ip = some iph) (hudp : inp.udp = some udph)
    (hlen : icmpCopyLen iph ≤ inp.packet.length) :
    ∀ p len addr, SendCall.icmpDnr p len addr ∈ (loopBody ck st inp).2 →
      p.icmp.«Type» = 3 ∧ p.icmp.Code = 3 ∧
      p.data.take (icmpCopyLen iph) = inp.packet.take (icmpCopyLen iph) := by
  obtain ⟨pkt, oip, oip6, oicmp, oicmp6, otcp, oudp, plen, raddr⟩ := inp
  obtain ⟨hr1, hr2, hr3, hr4, hr5, hr6, hr7, hr8, hr9, hr10, hr11,
    hs1, hs2, hs3, hs4, hs5, hs6, hs7, hs8, hs9, hs10,
    hd1, hd2, hd3, hd4, hd5, hd6, he1, he2, he3, he4, he5⟩ := hinv
  dsimp only at hip hudp hlen ⊢
  cases oudp with
  | none => exact absurd hudp (by simp)
  | some u =>
  injection hudp with h
  subst h
  cases oip with
  | none => exact absurd hip (by simp)
  | some iph0 =>
  injection hip with h
  subst h
  intro p len addr hmem
  cases oip6 <;> cases otcp <;>
    simp [loopBody, applyCkTcp4, applyCkTcp6, applyCkIcmp4, applyCkIcmp6,
      fillResetV4, fillResetV6, fillDnrV4, fillDnrV6] at hmem <;>
    obtain ⟨rfl, rfl, rfl⟩ := hmem <;>
    exact ⟨by simp [applyCkIcmp4, fillDnrV4, hd5],
           by simp [applyCkIcmp4, fillDnrV4, hd6],
           by simp only [applyCkIcmp4, fillDnrV4, memcpyArea]
              exact List.take_left' (by simp [Nat.min_eq_left hlen])⟩

/-- C4: for every inbound UDP-over-IPv4 packet, the total length of the
synthesized ICMP reply is the size of the reply's fixed header block
(`sizeof(ICMPPACKET)`, the outer IPv4 header plus the ICMP header) plus the
number of copied bytes, and that value is written, converted to network
order, into the reply's outer IPv4 length field.  `HdrLength` is a 4-bit
field, hence the bound. -/
theorem claim_C4 (ck : Checksummer) (st : Templates) (inp : PacketInput)
    (iph : DIVERT_IPHDR) (udph : DIVERT_UDPHDR)
    (hip : inp.ip = some iph) (hudp : inp.udp = some udph)
    (hihl : iph.HdrLength ≤ 0x0F) :
    ∀ p len addr, SendCall.icmpDnr p len addr ∈ (loopBody ck st inp).2 →
      len = sizeof_ICMPPACKET + icmpCopyLen iph ∧
      p.ip.Length = htons len := by
  obtain ⟨pkt, oip, oip6, oicmp, oicmp6, otcp, oudp, plen, raddr⟩ := inp
  dsimp only at hip hudp ⊢
  cases oudp with
  | none => exact absurd hudp (by simp)
  | some u =>
  injection hudp with h
  subst h
  cases oip with
  | none => exact absurd hip (by simp)
  | some iph0 =>
  injection hip with h
  subst h
  have hmod : (sizeof_ICMPPACKET + icmpCopyLen iph0) % 65536 =
      sizeof_ICMPPACKET + icmpCopyLen iph0 := by
    apply Nat.mod_eq_of_lt
    have h68 : icmpCopyLen iph0 ≤ 68 := by
      simp only [icmpCopyLen, sizeof_UINT32]
      omega
    simp only [sizeof_ICMPPACKET, sizeof_DIVERT_IPHDR, sizeof_DIVERT_ICMPHDR]
    omega
  intro p len addr hmem
  cases oip6 <;> cases otcp <;>
    simp [loopBody, applyCkTcp4, applyCkTcp6, applyCkIcmp4, applyCkIcmp6,
      fillResetV4, fillResetV6, fillDnrV4, fillDnrV6] at hmem <;>
    obtain ⟨rfl, rfl, rfl⟩ := hmem <;>
    exact ⟨by simp [applyCkIcmp4, fillDnrV4, Nat.add_comm],
           by simp [applyCkIcmp4, fillDnrV4, hmod, Nat.add_comm]⟩

/-- The inbound IPv4 header of the sample UDP/IPv4 packet. -/
def sampleUdp4Iph : DIVERT_IPHDR :=
  { sampleIph with Protocol := 17, Length := htons 32 }

/-- The ICMP fill the model performs for the sample UDP/IPv4 packet. -/
def sampleDnrFill : ICMPPACKET × Nat :=
  fillDnrV4 st0.dnr sampleUdp4Iph (List.range 32)

def sampleDnrPkt : ICMPPACKET :=
  applyCkIcmp4 ckZero sampleDnrFill.1 sampleDnrFill.2

/-- Witness for C3 on the sample UDP/IPv4 packet. -/
theorem claim_C3_witness :
    sampleDnrPkt.icmp.«Type» = 3 ∧ sampleDnrPkt.icmp.Code = 3 ∧
    sampleDnrPkt.data.take (icmpCopyLen sampleUdp4Iph) =
      sampleUdp4Input.packet.take (icmpCopyLen sampleUdp4Iph) :=
  claim_C3 ckZero st0 sampleUdp4Input sampleUdp4Iph sampleUdph (by decide)
    rfl rfl (by decide) sampleDnrPkt sampleDnrFill.2 (dnrSendAddr sampleAddr)
    (by decide)

/-- Witness for C4 on the sample UDP/IPv4 packet (reply length 56 =
28 + 28). -/
theorem claim_C4_witness :
    sampleDnrFill.2 = sizeof_ICMPPACKET + icmpCopyLen sampleUdp4Iph ∧
    sampleDnrPkt.ip.Length = htons sampleDnrFill.2 :=
  claim_C4 ckZero st0 sampleUdp4Input sampleUdp4Iph sampleUdph rfl rfl
    (by decide) sampleDnrPkt sampleDnrFill.2 (dnrSendAddr sampleAddr)
    (by decide)

/-- C5: for every inbound UDP-over-IPv6 packet, the synthesized ICMPv6
reply has Type 1 and Code 4, and the bytes placed in its data area are the
fixed-length prefix of the inbound packet (starting at the IPv6 header) of
length `sizeof(DIVERT_IPV6HDR) + sizeof(DIVERT_TCPHDR)`. -/
theorem claim_C5 (ck : Checksummer) (st : Templates) (inp : PacketInput)
    (ip6h : DIVERT_IPV6HDR) (udph : DIVERT_UDPHDR) (hinv : structuralInv st)
    (hip6 : inp.ipv6 = some ip6h) (hudp : inp.udp = some udph)
    (hlen : icmpv6CopyLen ≤ inp.packet.length) :
    ∀ p len addr, SendCall.icmpv6Dnr p len addr ∈ (loopBody ck st inp).2 →
      p.icmpv6.«Type» = 1 ∧ p.icmpv6.Code = 4 ∧
      p.data.take icmpv6CopyLen = inp.packet.take icmpv6CopyLen ∧
      icmpv6CopyLen = sizeof_DIVERT_IPV6HDR + sizeof_DIVERT_TCPHDR := by
  obtain ⟨pkt, oip, oip6, oicmp, oicmp6, otcp, oudp, plen, raddr⟩ := inp
  obtain ⟨hr1, hr2, hr3, hr4, hr5, hr6, hr7, hr8, hr9, hr10, hr11,
    hs1, hs2, hs3, hs4, hs5, hs6, hs7, hs8, hs9, hs10,
    hd1, hd2, hd3, hd4, hd5, hd6, he1, he2, he3, he4, he5⟩ := hinv
  dsimp only at hip6 hudp hlen ⊢
  cases oudp with
  | none => exact absurd hudp (by simp)
  | some u =>
  injection hudp with h
  subst h
  cases oip6 with
  | none => exact absurd hip6 (by simp)
  | some ip6h0 =>
  injection hip6 with h
  subst h
  intro p len addr hmem
  cases oip <;> cases otcp <;>
    simp [loopBody, applyCkTcp4, applyCkTcp6, applyCkIcmp4, applyCkIcmp6,
      fillResetV4, fillResetV6, fillDnrV4, fillDnrV6] at hmem <;>
    obtain ⟨rfl, rfl, rfl⟩ := hmem <;>
    exact ⟨by simp [applyCkIcmp6, fillDnrV6, he4],
           by simp [applyCkIcmp6, fillDnrV6, he5],
           by simp only [applyCkIcmp6, fillDnrV6, memcpyArea]
              exact List.take_left' (by simp [Nat.min_eq_left hlen]),
           rfl⟩

/-- The ICMPv6 fill the model performs for the sample UDP/IPv6 packet. -/
def sampleUdp6Ip6h : DIVERT_IPV6HDR :=
  { sampleIp6h with NextHdr := 17, Length := htons 20 }

def sampleDnrV6Fill : ICMPV6PACKET × Nat :=
  fillDnrV6 st0.dnrv6 sampleUdp6Ip6h (List.range 60)

def sampleDnrV6Pkt : ICMPV6PACKET :=
  applyCkIcmp6 ckZero sampleDnrV6Fill.1 sampleDnrV6Fill.2

/-- Witness for C5 on the sample UDP/IPv6 packet. -/
theorem claim_C5_witness :
    sampleDnrV6Pkt.icmpv6.«Type» = 1 ∧ sampleDnrV6Pkt.icmpv6.Code = 4 ∧
    sampleDnrV6Pkt.data.take icmpv6CopyLen =
      sampleUdp6Input.packet.take icmpv6CopyLen ∧
    icmpv6CopyLen = sizeof_DIVERT_IPV6HDR + sizeof_DIVERT_TCPHDR :=
  claim_C5 ckZero st0 sampleUdp6Input sampleUdp6Ip6h sampleUdph (by decide)
    rfl rfl (by decide) sampleDnrV6Pkt sampleDnrV6Fill.2
    (dnrSendAddr sampleAddr) (by decide)

/-- C6: every transmit's metadata is the captured metadata with only the
direction changed: logically inverted for TCP resets, forced outbound for
the ICMP/ICMPv6 unreachable replies; interface fields are unchanged. -/
theorem claim_C6 (ck : Checksummer) (st : Templates) (inp : PacketInput) :
    ∀ c ∈ (loopBody ck st inp).2, sendAddrOk inp.recv_addr c := by
  obtain ⟨pkt, oip, oip6, oicmp, oicmp6, otcp, oudp, plen, raddr⟩ := inp
  dsimp only
  cases otcp <;> cases oip <;> cases oip6 <;> cases oudp <;>
    simp [loopBody, sendAddrOk, resetSendAddr, dnrSendAddr, applyCkTcp4,
      applyCkTcp6, applyCkIcmp4, applyCkIcmp6]

/-- Witness for C6: the sample TCP reset goes out with direction inverted,
the sample ICMP reply with direction forced outbound. -/
theorem claim_C6_witness :
    sendAddrOk sampleAddr sampleSendTcp4 ∧
    sendAddrOk sampleAddr sampleSendUdp4 :=
  ⟨claim_C6 ckZero st0 sampleTcp4Input sampleSendTcp4 (by decide),
   claim_C6 ckZero st0 sampleUdp4Input sampleSendUdp4 (by decide)⟩

/-- The spec's ParsedHeaders invariant: at most one transport-layer header
view is populated by the parser. -/
def ParsedHeadersExclusive (inp : PacketInput) : Prop :=
  (inp.tcp.isSome → inp.udp = none ∧ inp.icmp = none ∧ inp.icmpv6 = none) ∧
  (inp.udp.isSome → inp.tcp = none ∧ inp.icmp = none ∧ inp.icmpv6 = none) ∧
  (inp.icmp.isSome → inp.tcp = none ∧ inp.udp = none ∧ inp.icmpv6 = none) ∧
  (inp.icmpv6.isSome → inp.tcp = none ∧ inp.udp = none ∧ inp.icmp = none)

instance (inp : PacketInput) : Decidable (ParsedHeadersExclusive inp) := by
  unfold ParsedHeadersExclusive; infer_instance

/-- C7: for every captured packet whose transport header is ICMP or ICMPv6,
no reply is synthesized and no transmit call is made; the template state is
untouched. -/
theorem claim_C7 (ck : Checksummer) (st : Templates) (inp : PacketInput)
    (hx : ParsedHeadersExclusive inp)
    (hicmp : inp.icmp.isSome ∨ inp.icmpv6.isSome) :
    (loopBody ck st inp).2 = [] ∧ (loopBody ck st inp).1 = st := by
  have htu : inp.tcp = none ∧ inp.udp = none := by
    rcases hicmp with h | h
    · exact ⟨(hx.2.2.1 h).1, (hx.2.2.1 h).2.1⟩
    · exact ⟨(hx.2.2.2 h).1, (hx.2.2.2 h).2.1⟩
  obtain ⟨pkt, oip, oip6, oicmp, oicmp6, otcp, oudp, plen, raddr⟩ := inp
  dsimp only at htu ⊢
  obtain ⟨rfl, rfl⟩ := htu
  cases oip <;> cases oip6 <;> simp [loopBody]

/-- Witness for C7 on the sample ICMP echo-request packet. -/
theorem claim_C7_witness :
    (loopBody ckZero st0 sampleIcmp4Input).2 = [] ∧
    (loopBody ckZero st0 sampleIcmp4Input).1 = st0 :=
  claim_C7 ckZero st0 sampleIcmp4Input (by decide) (by decide)

/-- C8: a captured packet in which neither an IPv4 nor an IPv6 header was
parsed is silently skipped: no send, no state change, and the dispatch loop
behaves on the remaining packets exactly as if the packet had not been
received. -/
theorem claim_C8 (ck : Checksummer) (st : Templates) (inp : PacketInput)
    (hip : inp.ip = none) (hip6 : inp.ipv6 = none) :
    loopBody ck st inp = (st, []) ∧
    ∀ rest, runLoop ck st (inp :: rest) = runLoop ck st rest := by
  obtain ⟨pkt, oip, oip6, oicmp, oicmp6, otcp, oudp, plen, raddr⟩ := inp
  dsimp only at hip hip6 ⊢
  subst hip
  subst hip6
  have hbody : loopBody ck st
      ⟨pkt, none, none, oicmp, oicmp6, otcp, oudp, plen, raddr⟩ =
      (st, []) := by
    simp [loopBody]
  refine ⟨hbody, fun rest => ?_⟩
  simp [runLoop, hbody]

/-- Witness for C8 on the sample unparsable packet. -/
theorem claim_C8_witness :
    loopBody ckZero st0 sampleUnparsedInput = (st0, []) ∧
    runLoop ckZero st0 (sampleUnparsedInput :: [sampleTcp4Input]) =
      runLoop ckZero st0 [sampleTcp4Input] :=
  ⟨(claim_C8 ckZero st0 sampleUnparsedInput rfl rfl).1,
   (claim_C8 ckZero st0 sampleUnparsedInput rfl rfl).2 [sampleTcp4Input]⟩

/-- The pre-loop initialisation establishes the structural invariant,
whatever the uninitialised stack data areas `d0`, `d60` contain. -/
lemma structuralInv_initTemplates (d0 d60 : List Nat) :
    structuralInv (initTemplates d0 d60) := by
  exact ⟨rfl, rfl, rfl, rfl, rfl, rfl, rfl, rfl, rfl, rfl, rfl,
    rfl, rfl, rfl, rfl, rfl, rfl, rfl, rfl, rfl, rfl,
    rfl, rfl, rfl, rfl, rfl, rfl, rfl, rfl, rfl, rfl, rfl⟩

/-- One loop iteration preserves the structural template fields: the
synthesis writes only addresses, ports, sequence/acknowledgment numbers,
lengths, the data areas and checksums. -/
lemma structuralInv_loopBody (ck : Checksummer) (st : Templates)
    (inp : PacketInput) (h : structuralInv st) :
    structuralInv (loopBody ck st inp).1 := by
  obtain ⟨pkt, oip, oip6, oicmp, oicmp6, otcp, oudp, plen, raddr⟩ := inp
  obtain ⟨hr1, hr2, hr3, hr4, hr5, hr6, hr7, hr8, hr9, hr10, hr11,
    hs1, hs2, hs3, hs4, hs5, hs6, hs7, hs8, hs9, hs10,
    hd1, hd2, hd3, hd4, hd5, hd6, he1, he2, he3, he4, he5⟩ := h
  cases otcp <;> cases oip <;> cases oip6 <;> cases oudp <;>
    simp [loopBody, structuralInv, applyCkTcp4, applyCkTcp6, applyCkIcmp4,
      applyCkIcmp6, fillResetV4, fillResetV6, fillDnrV4, fillDnrV6,
      hr1, hr2, hr3, hr4, hr5, hr6, hr7, hr8, hr9, hr10, hr11,
      hs1, hs2, hs3, hs4, hs5, hs6, hs7, hs8, hs9, hs10,
      hd1, hd2, hd3, hd4, hd5, hd6, he1, he2, he3, he4, he5]

/-- Every transmit of one iteration carries the structural field values
fixed before the loop, provided the state satisfies the invariant. -/
lemma sendStructOk_loopBody (ck : Checksummer) (st : Templates)
    (inp : PacketInput) (h : structuralInv st) :
    ∀ c ∈ (loopBody ck st inp).2, sendStructOk c := by
  obtain ⟨pkt, oip, oip6, oicmp, oicmp6, otcp, oudp, plen, raddr⟩ := inp
  obtain ⟨hr1, hr2, hr3, hr4, hr5, hr6, hr7, hr8, hr9, hr10, hr11,
    hs1, hs2, hs3, hs4, hs5, hs6, hs7, hs8, hs9, hs10,
    hd1, hd2, hd3, hd4, hd5, hd6, he1, he2, he3, he4, he5⟩ := h
  cases otcp <;> cases oip <;> cases oip6 <;> cases oudp <;>
    simp [loopBody, sendStructOk, applyCkTcp4, applyCkTcp6, applyCkIcmp4,
      applyCkIcmp6, fillResetV4, fillResetV6, fillDnrV4, fillDnrV6,
      hr1, hr2, hr3, hr4, hr5, hr6, hr7, hr8, hr9, hr10, hr11,
      hs1, hs2, hs3, hs4, hs5, hs6, hs7, hs8, hs9, hs10,
      hd1, hd2, hd3, hd4, hd5, hd6, he1, he2, he3, he4, he5]

/-- C9: the structural template fields (version, header-length words,
protocol/next-header, TTL/hop limit, TCP RST/ACK flag bits, ICMP/ICMPv6
type and code) are set once before the dispatch loop and never written by
any iteration: after any sequence of captured packets they still hold their
initial values, and every transmit ever made carries them. -/
theorem claim_C9 (ck : Checksummer) (d0 d60 : List Nat)
    (inputs : List PacketInput) :
    structuralInv (runLoop ck (initTemplates d0 d60) inputs).1 ∧
    ∀ c ∈ (runLoop ck (initTemplates d0 d60) inputs).2, sendStructOk c := by
  suffices h : ∀ st : Templates, structuralInv st →
      structuralInv (runLoop ck st inputs).1 ∧
      ∀ c ∈ (runLoop ck st inputs).2, sendStructOk c from
    h _ (structuralInv_initTemplates d0 d60)
  induction inputs with
  | nil =>
    intro st hst
    exact ⟨hst, by simp [runLoop]⟩
  | cons a l ih =>
    intro st hst
    have hst1 := structuralInv_loopBody ck st a hst
    obtain ⟨ih1, ih2⟩ := ih (loopBody ck st a).1 hst1
    constructor
    · simpa [runLoop] using ih1
    · intro c hc
      simp only [runLoop, List.mem_append] at hc
      rcases hc with hc | hc
      · exact sendStructOk_loopBody ck st a hst c hc
      · exact ih2 c hc

/-- Witness for C9: after processing the sample TCP packet the invariant
still holds and the emitted reset carries the structural fields. -/
theorem claim_C9_witness :
    structuralInv (runLoop ckZero (initTemplates [] []) [sampleTcp4Input]).1 ∧
    sendStructOk sampleSendTcp4 :=
  ⟨(claim_C9 ckZero [] [] [sampleTcp4Input]).1,
   (claim_C9 ckZero [] [] [sampleTcp4Input]).2 sampleSendTcp4 (by decide)⟩

/-- C10: for every value of the 4-bit inbound header-length field, the
number of bytes copied into the ICMP reply's data area stays within the
capacity reserved in the `dnr0` buffer, and every transmitted ICMP reply
length stays within the buffer's size. -/
theorem claim_C10 (ck : Checksummer) (st : Templates) (inp : PacketInput)
    (iph : DIVERT_IPHDR) (udph : DIVERT_UDPHDR)
    (hip : inp.ip = some iph) (hudp : inp.udp = some udph)
    (hihl : iph.HdrLength ≤ 0x0F) :
    icmpCopyLen iph ≤ dnrDataCapacity ∧
    0x0F * sizeof_UINT32 + 8 ≤ dnrDataCapacity ∧
    ∀ p len addr, SendCall.icmpDnr p len addr ∈ (loopBody ck st inp).2 →
      sizeof_ICMPPACKET + (len - sizeof_ICMPPACKET) ≤ sizeof_dnr0 := by
  have hcap : icmpCopyLen iph ≤ dnrDataCapacity := by
    simp only [icmpCopyLen, dnrDataCapacity, sizeof_dnr0, sizeof_ICMPPACKET,
      sizeof_DIVERT_IPHDR, sizeof_DIVERT_ICMPHDR, sizeof_UINT32]
    omega
  refine ⟨hcap, by
    simp only [dnrDataCapacity, sizeof_dnr0, sizeof_ICMPPACKET,
      sizeof_DIVERT_IPHDR, sizeof_DIVERT_ICMPHDR, sizeof_UINT32]
    omega, ?_⟩
  obtain ⟨pkt, oip, oip6, oicmp, oicmp6, otcp, oudp, plen, raddr⟩ := inp
  dsimp only at hip hudp
  cases oudp with
  | none => exact absurd hudp (by simp)
  | some u =>
  injection hudp with h
  subst h
  cases oip with
  | none => exact absurd hip (by simp)
  | some iph0 =>
  injection hip with h
  subst h
  intro p len addr hmem
  cases oip6 <;> cases otcp <;>
    simp [loopBody, applyCkTcp4, applyCkTcp6, applyCkIcmp4, applyCkIcmp6,
      fillResetV4, fillResetV6, fillDnrV4, fillDnrV6] at hmem <;>
    obtain ⟨rfl, rfl, rfl⟩ := hmem <;>
    · revert hihl hcap
      simp only [icmpCopyLen, dnrDataCapacity, sizeof_dnr0,
        sizeof_ICMPPACKET, sizeof_DIVERT_IPHDR, sizeof_DIVERT_ICMPHDR,
        sizeof_UINT32]
      omega

/-- Witness for C10 at the maximal header length 0x0F. -/
theorem claim_C10_witness :
    icmpCopyLen { sampleUdp4Iph with HdrLength := 0x0F } ≤ dnrDataCapacity ∧
    0x0F * sizeof_UINT32 + 8 ≤ dnrDataCapacity :=
  let inp : PacketInput :=
    { sampleUdp4Input with
      ip := some { sampleUdp4Iph with HdrLength := 0x0F },
      packet := List.range 68 }
  let h := claim_C10 ckZero st0 inp
    { sampleUdp4Iph with HdrLength := 0x0F } sampleUdph rfl rfl (by decide)
  ⟨h.1, h.2.1⟩
